import Mathlib

/-!
Verification of the `unused_io_amount` lint
(`src/tools/clippy/clippy_lints/src/unused_io_amount.rs`).

The lint inspects one statement at a time, recognises two "result gets
discarded" shapes (try-propagation and the unwrap family), and emits a
diagnostic when the discarded call is a `read`/`read_vectored`/
`write`/`write_vectored` method call dispatched through `std::io::Read`
or `std::io::Write`.

Modelling choices:
* HIR nodes are embedded as a small inductive type carrying only what the
  lint inspects: a span (an opaque `Nat`) and a kind tag.
* The trait resolver (`match_trait_method`, a service of the host compiler)
  is an oracle function stored in the `LateContext`.
* The try-desugaring detector (`is_try`, a consumed service) is modelled by
  a boolean flag stored on the match node, mirroring `MatchSource`.
* `span_lint` returns the diagnostic instead of performing a side effect;
  the checker functions return the list of diagnostics they would emit.
* `check_stmt` returns `Option (List Diagnostic)`: `none` models the panic
  that the unchecked indexing `args[0]` in the unwrap-family branch would
  cause on a method call without a receiver (which HIR never produces).
-/

/-- Fully-qualified path segments, as stored in the lint crate's path table. -/
abbrev RPath := List String

/-- Path of the Read capability trait (from the crate's path table). -/
def IO_READ : RPath := ["std", "io", "Read"]

/-- Path of the Write capability trait (from the crate's path table). -/
def IO_WRITE : RPath := ["std", "io", "Write"]

/-- Path of the try-desugaring outcome-conversion function (from the crate's path table). -/
def TRY_INTO_RESULT : RPath := ["std", "ops", "Try", "into_result"]

mutual

/-- Expression node: a source span together with an expression kind. -/
inductive Expr where
  | mk (span : Nat) (kind : ExprKind)

/-- Kinds of HIR expressions distinguished by the lint.  The boolean on
`matchE` records whether the match node is a try-desugaring, i.e. the answer
of the consumed try-sugar detector `is_try` on this node. -/
inductive ExprKind where
  | matchE (res : Expr) (isTryDesugar : Bool)
  | call (func : Expr) (args : List Expr)
  | pathE (p : RPath)
  | methodCall (name : String) (args : List Expr)
  | other

end

/-- Span accessor of an expression node. -/
def Expr.span : Expr → Nat
  | .mk s _ => s

/-- Kind accessor of an expression node. -/
def Expr.kind : Expr → ExprKind
  | .mk _ k => k

/-- Statement kinds: local binding (with optional initialiser), item,
expression statement, and expression statement with trailing semicolon. -/
inductive StmtKind where
  | localS (init : Option Expr)
  | itemS
  | exprS (e : Expr)
  | semi (e : Expr)

/-- Statement node: a source span together with a statement kind. -/
structure Stmt where
  span : Nat
  kind : StmtKind

/-- Lint declaration: name and category, as in `declare_clippy_lint!`. -/
structure Lint where
  name : String
  category : String
deriving DecidableEq, Repr

/-- The lint declared by this file, with category `correctness`. -/
def UNUSED_IO_AMOUNT : Lint := ⟨"unused_io_amount", "correctness"⟩

/-- A diagnostic: the lint it belongs to, the span it is attached to, and
its message. -/
structure Diagnostic where
  lint : Lint
  span : Nat
  msg : String
deriving DecidableEq, Repr

/-- Modelling of the `span_lint` utility: it emits exactly one diagnostic,
returned here as a singleton list. -/
def span_lint (lint : Lint) (span : Nat) (msg : String) : List Diagnostic :=
  [⟨lint, span, msg⟩]

/-- The analysis context.  Its single field models the consumed
interface/trait resolution service: `matchTraitMethod e p` answers whether
the method call `e` dispatches through the trait named by path `p`. -/
structure LateContext where
  matchTraitMethod : Expr → RPath → Bool

/-- Modelling of the `match_trait_method` utility: a query to the
context's trait resolution oracle. -/
def match_trait_method (cx : LateContext) (e : Expr) (p : RPath) : Bool :=
  cx.matchTraitMethod e p

/-- Modelling of the `match_qpath` utility: the qualified path equals the
given segment list. -/
def match_qpath (p q : RPath) : Bool :=
  p == q

/-- Embedding of `check_method_call` (lines 67-91 of the source): if the
candidate is a method call, query Read/Write dispatch and run the decision
table keyed by `(read_trait, write_trait, symbol)`; any diagnostic is
attached to the span of the outer expression `expr`. -/
def check_method_call (cx : LateContext) (call expr : Expr) : List Diagnostic :=
  match call.kind with
  | .methodCall symbol _ =>
    let read_trait := match_trait_method cx call IO_READ
    let write_trait := match_trait_method cx call IO_WRITE
    match read_trait, write_trait, symbol with
    | true, _, "read" =>
        span_lint UNUSED_IO_AMOUNT expr.span
          "read amount is not handled. Use `Read::read_exact` instead"
    | true, _, "read_vectored" =>
        span_lint UNUSED_IO_AMOUNT expr.span "read amount is not handled"
    | _, true, "write" =>
        span_lint UNUSED_IO_AMOUNT expr.span
          "written amount is not handled. Use `Write::write_all` instead"
    | _, true, "write_vectored" =>
        span_lint UNUSED_IO_AMOUNT expr.span "written amount is not handled"
    | _, _, _ => []
  | _ => []

/-- Embedding of `check_stmt` (lines 36-64 of the source).  The result is
`some diags` when the pass returns normally having emitted `diags`, and
`none` when the unchecked indexing `args[0]` in the unwrap-family branch
would be out of bounds (a method call with an empty argument list, which
well-formed HIR never produces since the receiver is always `args[0]`). -/
def check_stmt (cx : LateContext) (s : Stmt) : Option (List Diagnostic) :=
  match s.kind with
  | .semi expr | .exprS expr =>
    match expr.kind with
    | .matchE res isTryDesugar =>
      if isTryDesugar then
        some (match res.kind with
          | .call func args =>
            (match func.kind with
             | .pathE path =>
               match args with
               | [a] =>
                 if match_qpath path TRY_INTO_RESULT then
                   check_method_call cx a expr
                 else []
               | _ => []
             | _ => [])
          | _ => check_method_call cx res expr)
      else some []
    | .methodCall mname margs =>
      if mname == "expect" || mname == "unwrap" || mname == "unwrap_or"
          || mname == "unwrap_or_else" then
        match margs with
        | a :: _ => some (check_method_call cx a expr)
        | [] => none
      else some []
    | _ => some []
  | _ => some []

/-- Yields true exactly on method-call expression nodes. -/
def Expr.isMethodCall (e : Expr) : Bool :=
  match e.kind with
  | .methodCall _ _ => true
  | _ => false

/-- Yields true when `e` is a plain call of the outcome-conversion function
with exactly one argument, i.e. the wrapped form produced by try-sugar
lowering. -/
def is_conv_call (e : Expr) : Bool :=
  match e.kind with
  | .call func args =>
    (match func.kind with
     | .pathE p => match_qpath p TRY_INTO_RESULT && args.length == 1
     | _ => false)
  | _ => false

mutual

/-- Well-formedness of an expression: every method-call node carries at
least one argument (its receiver), as guaranteed by HIR. -/
def exprWf : Expr → Bool
  | .mk _ k => kindWf k

/-- Well-formedness of an expression kind. -/
def kindWf : ExprKind → Bool
  | .matchE res _ => exprWf res
  | .call f args => exprWf f && argsWf args
  | .pathE _ => true
  | .methodCall _ args => !args.isEmpty && argsWf args
  | .other => true

/-- Well-formedness of an argument list. -/
def argsWf : List Expr → Bool
  | [] => true
  | e :: es => exprWf e && argsWf es

end

/-- Well-formedness of a statement: its expressions are well-formed. -/
def stmtWf (s : Stmt) : Bool :=
  match s.kind with
  | .semi e | .exprS e => exprWf e
  | .localS (some e) => exprWf e
  | .localS none => true
  | .itemS => true

/-! ### Helper lemmas about the classifier and the statement shapes -/

/-- Helper: a Read-dispatched `read` call yields the exact-fill-read diagnostic. -/
theorem cmc_read (cx : LateContext) (call expr : Expr) (args : List Expr)
    (hk : call.kind = ExprKind.methodCall "read" args)
    (hr : match_trait_method cx call IO_READ = true) :
    check_method_call cx call expr
      = [⟨UNUSED_IO_AMOUNT, expr.span, "read amount is not handled. Use `Read::read_exact` instead"⟩] := by
  cases hw : match_trait_method cx call IO_WRITE <;>
    simp [check_method_call, hk, hr, hw, span_lint]

/-- Helper: a Read-dispatched `read_vectored` call yields the bare read diagnostic. -/
theorem cmc_read_vectored (cx : LateContext) (call expr : Expr) (args : List Expr)
    (hk : call.kind = ExprKind.methodCall "read_vectored" args)
    (hr : match_trait_method cx call IO_READ = true) :
    check_method_call cx call expr
      = [⟨UNUSED_IO_AMOUNT, expr.span, "read amount is not handled"⟩] := by
  cases hw : match_trait_method cx call IO_WRITE <;>
    simp [check_method_call, hk, hr, hw, span_lint]

/-- Helper: a Write-dispatched `write` call yields the exact-fill-write diagnostic. -/
theorem cmc_write (cx : LateContext) (call expr : Expr) (args : List Expr)
    (hk : call.kind = ExprKind.methodCall "write" args)
    (hw : match_trait_method cx call IO_WRITE = true) :
    check_method_call cx call expr
      = [⟨UNUSED_IO_AMOUNT, expr.span, "written amount is not handled. Use `Write::write_all` instead"⟩] := by
  cases hr : match_trait_method cx call IO_READ <;>
    simp [check_method_call, hk, hr, hw, span_lint]

/-- Helper: a Write-dispatched `write_vectored` call yields the bare write diagnostic. -/
theorem cmc_write_vectored (cx : LateContext) (call expr : Expr) (args : List Expr)
    (hk : call.kind = ExprKind.methodCall "write_vectored" args)
    (hw : match_trait_method cx call IO_WRITE = true) :
    check_method_call cx call expr
      = [⟨UNUSED_IO_AMOUNT, expr.span, "written amount is not handled"⟩] := by
  cases hr : match_trait_method cx call IO_READ <;>
    simp [check_method_call, hk, hr, hw, span_lint]

/-- Helper: the classifier emits at most one diagnostic. -/
theorem cmc_length_le_one (cx : LateContext) (call expr : Expr) :
    (check_method_call cx call expr).length ≤ 1 := by
  unfold check_method_call
  split
  · dsimp only
    split <;> simp [span_lint]
  · simp

/-- Helper: the try shape around the one-argument conversion call hands the
conversion call's argument to the classifier. -/
theorem check_stmt_try_conv (cx : LateContext) (sStmt sOuter sRes sFunc : Nat) (inner : Expr) :
    check_stmt cx ⟨sStmt, .semi (.mk sOuter (.matchE
        (.mk sRes (.call (.mk sFunc (.pathE TRY_INTO_RESULT)) [inner])) true))⟩
      = some (check_method_call cx inner (.mk sOuter (.matchE
          (.mk sRes (.call (.mk sFunc (.pathE TRY_INTO_RESULT)) [inner])) true))) := by
  rfl

/-- Helper: an unwrap-family statement hands the wrapped call's receiver to
the classifier. -/
theorem check_stmt_unwrap (cx : LateContext) (sStmt sOuter : Nat) (uname : String)
    (inner : Expr) (rest : List Expr)
    (hu : uname = "expect" ∨ uname = "unwrap" ∨ uname = "unwrap_or" ∨ uname = "unwrap_or_else") :
    check_stmt cx ⟨sStmt, .semi (.mk sOuter (.methodCall uname (inner :: rest)))⟩
      = some (check_method_call cx inner (.mk sOuter (.methodCall uname (inner :: rest)))) := by
  rcases hu with rfl | rfl | rfl | rfl <;> rfl

/-! ### Claim theorems -/

/-- C1: for a statement of the form `w.write(data)?;` — a try-desugared
match over the conversion call wrapping a Write-dispatched `write` method
call — the pipeline emits exactly one diagnostic, whose message states the
written amount is not handled and suggests `Write::write_all`, attached to
the span of the whole outer try expression (here `sOuter`, not the inner
call's own span), under the lint whose severity category is `correctness`. -/
theorem write_try_discard_one_diagnostic
    (cx : LateContext) (sStmt sOuter sRes sFunc : Nat)
    (inner : Expr) (wargs : List Expr)
    (hk : inner.kind = ExprKind.methodCall "write" wargs)
    (hw : match_trait_method cx inner IO_WRITE = true) :
    check_stmt cx ⟨sStmt, .semi (.mk sOuter (.matchE
        (.mk sRes (.call (.mk sFunc (.pathE TRY_INTO_RESULT)) [inner])) true))⟩
      = some [⟨UNUSED_IO_AMOUNT, sOuter,
          "written amount is not handled. Use `Write::write_all` instead"⟩]
    ∧ UNUSED_IO_AMOUNT.category = "correctness" := by
  refine ⟨?_, rfl⟩
  rw [check_stmt_try_conv, cmc_write cx inner _ wargs hk hw]
  rfl

/-- Concrete context whose trait oracle answers true exactly for the node
with span 2 and the Write trait path. -/
def writeOnlyCx : LateContext := ⟨fun e p => e.span == 2 && p == IO_WRITE⟩

/-- Concrete Write-dispatched `write` method call (receiver and one argument). -/
def writeCall : Expr := .mk 2 (.methodCall "write" [.mk 5 .other, .mk 6 .other])

/-- C1 witness: the concrete statement `w.write(data)?;` produces exactly
the exact-fill-write diagnostic at the outer span 1. -/
theorem write_try_discard_one_diagnostic_witness :
    match_trait_method writeOnlyCx writeCall IO_WRITE = true ∧
    (check_stmt writeOnlyCx ⟨0, .semi (.mk 1 (.matchE
        (.mk 3 (.call (.mk 4 (.pathE TRY_INTO_RESULT)) [writeCall])) true))⟩
      = some [⟨UNUSED_IO_AMOUNT, 1,
          "written amount is not handled. Use `Write::write_all` instead"⟩]
    ∧ UNUSED_IO_AMOUNT.category = "correctness") :=
  ⟨by decide,
   write_try_discard_one_diagnostic writeOnlyCx 0 1 3 4 writeCall
     [.mk 5 .other, .mk 6 .other] rfl (by decide)⟩

/-- C2: for a bare statement `r.read(buf).unwrap();` — a method call named
one of `expect`, `unwrap`, `unwrap_or`, `unwrap_or_else` whose first
argument (the receiver) is a Read-dispatched `read` call — the pipeline
emits exactly one diagnostic stating the read amount is not handled and
suggesting `Read::read_exact`. -/
theorem read_unwrap_discard_one_diagnostic
    (cx : LateContext) (sStmt sOuter : Nat) (uname : String)
    (inner : Expr) (rest rargs : List Expr)
    (hu : uname = "expect" ∨ uname = "unwrap" ∨ uname = "unwrap_or" ∨ uname = "unwrap_or_else")
    (hk : inner.kind = ExprKind.methodCall "read" rargs)
    (hr : match_trait_method cx inner IO_READ = true) :
    check_stmt cx ⟨sStmt, .semi (.mk sOuter (.methodCall uname (inner :: rest)))⟩
      = some [⟨UNUSED_IO_AMOUNT, sOuter,
          "read amount is not handled. Use `Read::read_exact` instead"⟩] := by
  rw [check_stmt_unwrap cx sStmt sOuter uname inner rest hu,
    cmc_read cx inner _ rargs hk hr]
  rfl

/-- Concrete context whose trait oracle answers true exactly for the node
with span 2 and the Read trait path. -/
def readOnlyCx : LateContext := ⟨fun e p => e.span == 2 && p == IO_READ⟩

/-- Concrete Read-dispatched `read` method call (receiver and one argument). -/
def readCall : Expr := .mk 2 (.methodCall "read" [.mk 5 .other, .mk 6 .other])

/-- C2 witness: the concrete statement `r.read(buf).unwrap();` produces
exactly the exact-fill-read diagnostic. -/
theorem read_unwrap_discard_one_diagnostic_witness :
    match_trait_method readOnlyCx readCall IO_READ = true ∧
    check_stmt readOnlyCx ⟨0, .semi (.mk 1 (.methodCall "unwrap" [readCall]))⟩
      = some [⟨UNUSED_IO_AMOUNT, 1,
          "read amount is not handled. Use `Read::read_exact` instead"⟩] :=
  ⟨by decide,
   read_unwrap_discard_one_diagnostic readOnlyCx 0 1 "unwrap" readCall [] [.mk 5 .other, .mk 6 .other]
     (Or.inr (Or.inl rfl)) rfl (by decide)⟩

/-- C5: a statement whose kind is not an expression evaluated for its side
effect — a local binding (with any initialiser, even a qualifying I/O call)
or an item — yields no expression for the pipeline, which emits nothing. -/
theorem non_expression_statements_emit_nothing
    (cx : LateContext) (sp : Nat) (init : Option Expr) :
    check_stmt cx ⟨sp, .localS init⟩ = some [] ∧
    check_stmt cx ⟨sp, .itemS⟩ = some [] :=
  ⟨rfl, rfl⟩

/-- C3: the classifier is trait-aware and name-gated: a method call whose
name is not a Read-dispatched read name and not a Write-dispatched write
name produces no diagnostic — in particular `read`/`read_vectored` without
Read dispatch, `write`/`write_vectored` without Write dispatch, and every
method name outside the four regardless of dispatch. -/
theorem classifier_trait_and_name_gate
    (cx : LateContext) (call expr : Expr) (name : String) (margs : List Expr)
    (hk : call.kind = ExprKind.methodCall name margs)
    (hr : (name ≠ "read" ∧ name ≠ "read_vectored") ∨ match_trait_method cx call IO_READ = false)
    (hw : (name ≠ "write" ∧ name ≠ "write_vectored") ∨ match_trait_method cx call IO_WRITE = false) :
    check_method_call cx call expr = [] := by
  unfold check_method_call
  rw [hk]
  dsimp only
  split
  · rename_i hrt hname
    rcases hr with ⟨h1, _⟩ | h1 <;> simp_all
  · rename_i hrt hname
    rcases hr with ⟨_, h2⟩ | h2 <;> simp_all
  · rename_i hwt hname
    rcases hw with ⟨h1, _⟩ | h1 <;> simp_all
  · rename_i hwt hname
    rcases hw with ⟨_, h2⟩ | h2 <;> simp_all
  · rfl

/-- Concrete context whose trait oracle always answers false. -/
def noTraitCx : LateContext := ⟨fun _ _ => false⟩

/-- C3 witness: a method call literally named `read` that does not dispatch
through the Read trait produces no diagnostic. -/
theorem classifier_trait_and_name_gate_witness :
    match_trait_method noTraitCx readCall IO_READ = false ∧
    check_method_call noTraitCx readCall (.mk 1 .other) = [] :=
  ⟨by decide,
   classifier_trait_and_name_gate noTraitCx readCall (.mk 1 .other) "read"
     [.mk 5 .other, .mk 6 .other] rfl (Or.inr (by decide)) (Or.inl (by decide))⟩

/-- C4: for the vectored variants under either discard shape — the
try-propagation statement and the unwrap-family statement — a
Read-dispatched `read_vectored` or a Write-dispatched `write_vectored`
inner call yields exactly one diagnostic whose message has no "use X
instead" suggestion clause. -/
theorem vectored_message_omits_suggestion
    (cx : LateContext) (sStmt sOuter sRes sFunc : Nat) (uname : String)
    (inner : Expr) (rest vargs : List Expr)
    (hu : uname = "expect" ∨ uname = "unwrap" ∨ uname = "unwrap_or" ∨ uname = "unwrap_or_else") :
    (inner.kind = ExprKind.methodCall "read_vectored" vargs →
      match_trait_method cx inner IO_READ = true →
      check_stmt cx ⟨sStmt, .semi (.mk sOuter (.matchE
          (.mk sRes (.call (.mk sFunc (.pathE TRY_INTO_RESULT)) [inner])) true))⟩
        = some [⟨UNUSED_IO_AMOUNT, sOuter, "read amount is not handled"⟩]
      ∧ check_stmt cx ⟨sStmt, .semi (.mk sOuter (.methodCall uname (inner :: rest)))⟩
        = some [⟨UNUSED_IO_AMOUNT, sOuter, "read amount is not handled"⟩])
    ∧ (inner.kind = ExprKind.methodCall "write_vectored" vargs →
      match_trait_method cx inner IO_WRITE = true →
      check_stmt cx ⟨sStmt, .semi (.mk sOuter (.matchE
          (.mk sRes (.call (.mk sFunc (.pathE TRY_INTO_RESULT)) [inner])) true))⟩
        = some [⟨UNUSED_IO_AMOUNT, sOuter, "written amount is not handled"⟩]
      ∧ check_stmt cx ⟨sStmt, .semi (.mk sOuter (.methodCall uname (inner :: rest)))⟩
        = some [⟨UNUSED_IO_AMOUNT, sOuter, "written amount is not handled"⟩]) := by
  constructor
  · intro hk hr
    constructor
    · rw [check_stmt_try_conv, cmc_read_vectored cx inner _ vargs hk hr]
      rfl
    · rw [check_stmt_unwrap cx sStmt sOuter uname inner rest hu,
        cmc_read_vectored cx inner _ vargs hk hr]
      rfl
  · intro hk hw
    constructor
    · rw [check_stmt_try_conv, cmc_write_vectored cx inner _ vargs hk hw]
      rfl
    · rw [check_stmt_unwrap cx sStmt sOuter uname inner rest hu,
        cmc_write_vectored cx inner _ vargs hk hw]
      rfl

/-- Concrete Read-dispatched `read_vectored` method call. -/
def readVecCall : Expr := .mk 2 (.methodCall "read_vectored" [.mk 5 .other, .mk 6 .other])

/-- C4 witness: the concrete statement `socket.read_vectored(&mut bufs)?;`
produces exactly one diagnostic whose message has no suggestion clause. -/
theorem vectored_message_omits_suggestion_witness :
    match_trait_method readOnlyCx readVecCall IO_READ = true ∧
    check_stmt readOnlyCx ⟨0, .semi (.mk 1 (.matchE
        (.mk 3 (.call (.mk 4 (.pathE TRY_INTO_RESULT)) [readVecCall])) true))⟩
      = some [⟨UNUSED_IO_AMOUNT, 1, "read amount is not handled"⟩] :=
  ⟨by decide,
   ((vectored_message_omits_suggestion readOnlyCx 0 1 3 4 "expect" readVecCall []
       [.mk 5 .other, .mk 6 .other] (Or.inl rfl)).1 rfl (by decide)).1⟩

/-- C6: in the try-propagation shape, when the scrutinee is a plain call of
the outcome-conversion function with exactly one argument, the classifier
receives that argument; for every scrutinee not matching that pattern, the
result is the classifier applied to the scrutinee itself. -/
theorem try_shape_selects_inner_call
    (cx : LateContext) (sStmt sOuter : Nat) (res : Expr) :
    (∀ f a, res.kind = ExprKind.call f [a] → f.kind = ExprKind.pathE TRY_INTO_RESULT →
      check_stmt cx ⟨sStmt, .semi (.mk sOuter (.matchE res true))⟩
        = some (check_method_call cx a (.mk sOuter (.matchE res true))))
    ∧ (is_conv_call res = false →
      check_stmt cx ⟨sStmt, .semi (.mk sOuter (.matchE res true))⟩
        = some (check_method_call cx res (.mk sOuter (.matchE res true)))) := by
  constructor
  · rintro f a hres hf
    obtain ⟨sr, kr⟩ := res
    simp only [Expr.kind] at hres
    subst hres
    obtain ⟨sf, kf⟩ := f
    simp only [Expr.kind] at hf
    subst hf
    rfl
  · intro hconv
    obtain ⟨sr, kr⟩ := res
    cases kr with
    | call f args =>
      obtain ⟨sf, kf⟩ := f
      have hnm : check_method_call cx (Expr.mk sr (.call (.mk sf kf) args))
          (.mk sOuter (.matchE (.mk sr (.call (.mk sf kf) args)) true)) = [] := rfl
      rw [hnm]
      cases kf with
      | pathE p =>
        simp only [is_conv_call, Expr.kind, Bool.and_eq_false_iff] at hconv
        rcases args with _ | ⟨a, _ | ⟨b, rest⟩⟩
        · rfl
        · rcases hconv with hq | hl
          · simp [check_stmt, Expr.kind, hq]
          · simp at hl
        · rfl
      | matchE r t => rfl
      | call f2 a2 => rfl
      | methodCall n a2 => rfl
      | other => rfl
    | matchE r t => rfl
    | pathE p => rfl
    | methodCall n a2 => rfl
    | other => rfl

/-- C6 witness: for a scrutinee that is the conversion call around a
Read-dispatched `read`, the classifier receives the wrapped call and the
exact-fill-read diagnostic results. -/
theorem try_shape_selects_inner_call_witness :
    (Expr.mk 3 (.call (.mk 4 (.pathE TRY_INTO_RESULT)) [readCall])).kind
        = ExprKind.call (.mk 4 (.pathE TRY_INTO_RESULT)) [readCall] ∧
    check_stmt readOnlyCx ⟨0, .semi (.mk 1 (.matchE
        (.mk 3 (.call (.mk 4 (.pathE TRY_INTO_RESULT)) [readCall])) true))⟩
      = some (check_method_call readOnlyCx readCall (.mk 1 (.matchE
          (.mk 3 (.call (.mk 4 (.pathE TRY_INTO_RESULT)) [readCall])) true))) :=
  ⟨rfl,
   (try_shape_selects_inner_call readOnlyCx 0 1
       (.mk 3 (.call (.mk 4 (.pathE TRY_INTO_RESULT)) [readCall]))).1
     (.mk 4 (.pathE TRY_INTO_RESULT)) readCall rfl rfl⟩

/-- Helper: every run of the per-statement pipeline either hits the
out-of-bounds model, emits nothing, or consists of one classifier run. -/
theorem check_stmt_shape (cx : LateContext) (s : Stmt) :
    check_stmt cx s = none ∨ check_stmt cx s = some [] ∨
      ∃ c e, check_stmt cx s = some (check_method_call cx c e) := by
  unfold check_stmt
  repeat' split
  all_goals first
    | exact Or.inl rfl
    | exact Or.inr (Or.inl rfl)
    | exact Or.inr (Or.inr ⟨_, _, rfl⟩)

/-- C7: the diagnostic sink is invoked at most once per analyzed statement:
whenever the pipeline returns normally, the emitted diagnostic list has
length at most one. -/
theorem pipeline_emits_at_most_one (cx : LateContext) (s : Stmt) (d : List Diagnostic)
    (h : check_stmt cx s = some d) : d.length ≤ 1 := by
  rcases check_stmt_shape cx s with h0 | h0 | ⟨c, e, h0⟩ <;> rw [h0] at h
  · exact Option.noConfusion h
  · rw [Option.some_inj] at h
    subst h
    simp
  · rw [Option.some_inj] at h
    subst h
    exact cmc_length_le_one cx c e

/-- C7 witness: the concrete `r.read(buf).unwrap();` statement emits one
diagnostic, and one is at most one. -/
theorem pipeline_emits_at_most_one_witness :
    check_stmt readOnlyCx ⟨0, .semi (.mk 1 (.methodCall "expect" [readCall]))⟩
        = some [⟨UNUSED_IO_AMOUNT, 1,
            "read amount is not handled. Use `Read::read_exact` instead"⟩] ∧
    ([(⟨UNUSED_IO_AMOUNT, 1,
        "read amount is not handled. Use `Read::read_exact` instead"⟩ : Diagnostic)]).length ≤ 1 :=
  ⟨by decide,
   pipeline_emits_at_most_one readOnlyCx ⟨0, .semi (.mk 1 (.methodCall "expect" [readCall]))⟩
     [⟨UNUSED_IO_AMOUNT, 1, "read amount is not handled. Use `Read::read_exact` instead"⟩]
     (by decide)⟩

/-- C8: an inner expression that is not a method call — a plain call, a
path reference, a match, or anything else — makes the classifier return
normally with no diagnostic. -/
theorem classifier_ignores_non_method_call (cx : LateContext) (call expr : Expr)
    (h : call.isMethodCall = false) :
    check_method_call cx call expr = [] := by
  obtain ⟨s0, k⟩ := call
  cases k <;> simp_all [Expr.isMethodCall, Expr.kind, check_method_call]

/-- C8 witness: a path-reference expression handed to the classifier
produces no diagnostic. -/
theorem classifier_ignores_non_method_call_witness :
    (Expr.mk 3 (.pathE ["f"])).isMethodCall = false ∧
    check_method_call readOnlyCx (.mk 3 (.pathE ["f"])) (.mk 1 .other) = [] :=
  ⟨by decide,
   classifier_ignores_non_method_call readOnlyCx (.mk 3 (.pathE ["f"])) (.mk 1 .other) (by decide)⟩

/-- C9: the per-statement pipeline is total on well-formed statements: the
unchecked indexing of the unwrap branch's first argument never goes out of
bounds, because a well-formed method call always carries its receiver as
its first argument, so the pipeline always returns normally. -/
theorem pipeline_total_on_wf (cx : LateContext) (s : Stmt)
    (h : stmtWf s = true) : (check_stmt cx s).isSome = true := by
  obtain ⟨ss, k⟩ := s
  cases k with
  | localS i => rfl
  | itemS => rfl
  | exprS e =>
    simp only [stmtWf] at h
    obtain ⟨se, ke⟩ := e
    cases ke with
    | matchE r t => cases t <;> rfl
    | call f a => rfl
    | pathE p => rfl
    | other => rfl
    | methodCall n margs =>
      cases margs with
      | nil => simp [exprWf, kindWf] at h
      | cons a rest =>
        cases hcond : (n == "expect" || n == "unwrap" || n == "unwrap_or"
            || n == "unwrap_or_else") <;>
          simp [check_stmt, Expr.kind, hcond]
  | semi e =>
    simp only [stmtWf] at h
    obtain ⟨se, ke⟩ := e
    cases ke with
    | matchE r t => cases t <;> rfl
    | call f a => rfl
    | pathE p => rfl
    | other => rfl
    | methodCall n margs =>
      cases margs with
      | nil => simp [exprWf, kindWf] at h
      | cons a rest =>
        cases hcond : (n == "expect" || n == "unwrap" || n == "unwrap_or"
            || n == "unwrap_or_else") <;>
          simp [check_stmt, Expr.kind, hcond]

/-- C9 witness: the well-formed concrete `r.read(buf).unwrap();` statement
is processed to a normal result. -/
theorem pipeline_total_on_wf_witness :
    stmtWf ⟨0, .semi (.mk 1 (.methodCall "unwrap" [readCall]))⟩ = true ∧
    (check_stmt readOnlyCx ⟨0, .semi (.mk 1 (.methodCall "unwrap" [readCall]))⟩).isSome = true :=
  ⟨by decide,
   pipeline_total_on_wf readOnlyCx ⟨0, .semi (.mk 1 (.methodCall "unwrap" [readCall]))⟩ (by decide)⟩

set_option linter.unusedVariables false in
/-- C10: the unwrap-family wrapper is matched by name only: even when the
wrapper method call dispatches through neither the Read nor the Write
interface (a user-defined `unwrap`-like method on an arbitrary type), the
diagnostic for its Write-dispatched `write` receiver is still emitted. -/
theorem unwrap_wrapper_not_trait_checked
    (cx : LateContext) (sStmt sOuter : Nat) (uname : String)
    (inner : Expr) (rest wargs : List Expr)
    (hu : uname = "expect" ∨ uname = "unwrap" ∨ uname = "unwrap_or" ∨ uname = "unwrap_or_else")
    (hR : match_trait_method cx (.mk sOuter (.methodCall uname (inner :: rest))) IO_READ = false)
    (hW : match_trait_method cx (.mk sOuter (.methodCall uname (inner :: rest))) IO_WRITE = false)
    (hk : inner.kind = ExprKind.methodCall "write" wargs)
    (hw : match_trait_method cx inner IO_WRITE = true) :
    check_stmt cx ⟨sStmt, .semi (.mk sOuter (.methodCall uname (inner :: rest)))⟩
      = some [⟨UNUSED_IO_AMOUNT, sOuter,
          "written amount is not handled. Use `Write::write_all` instead"⟩] := by
  rw [check_stmt_unwrap cx sStmt sOuter uname inner rest hu,
    cmc_write cx inner _ wargs hk hw]
  rfl

/-- C10 witness: a wrapper `unwrap` that dispatches through no known trait
still yields the write diagnostic for its Write-dispatched receiver. -/
theorem unwrap_wrapper_not_trait_checked_witness :
    match_trait_method writeOnlyCx (.mk 1 (.methodCall "unwrap" [writeCall])) IO_READ = false ∧
    match_trait_method writeOnlyCx (.mk 1 (.methodCall "unwrap" [writeCall])) IO_WRITE = false ∧
    check_stmt writeOnlyCx ⟨0, .semi (.mk 1 (.methodCall "unwrap" [writeCall]))⟩
      = some [⟨UNUSED_IO_AMOUNT, 1,
          "written amount is not handled. Use `Write::write_all` instead"⟩] :=
  ⟨by decide, by decide,
   unwrap_wrapper_not_trait_checked writeOnlyCx 0 1 "unwrap" writeCall []
     [.mk 5 .other, .mk 6 .other] (Or.inr (Or.inl rfl)) (by decide) (by decide) rfl (by decide)⟩
